import Mathlib

/-!
Verification of the OBS Desync Detector plugin (src/OBSDesyncDetector.py).

Shallow embedding conventions:
* Python floats are modelled as `ℚ`; the integer frame counters returned by the
  host API are modelled as `ℤ`.
* The mutable global dictionaries `history`, `config`, `last_alert_time` and the
  set `known_issues` become explicit values threaded through the functions.
* External collaborators (the `obs` host API, `psutil`, `time`, `datetime`) are
  modelled as inputs: each poll tick receives the values those calls would
  return.
* `last_alert_time` (a Python dict) is modelled as an association list with
  first-match lookup and in-place update, `known_issues` (a Python set) as a
  `Finset String`.
-/

namespace OBSDesync

/-- Truncation toward zero of a rational, the semantics of Python `int(x)`
applied to a float. -/
def int_trunc (q : ℚ) : ℤ :=
  if q < 0 then -(⌊-q⌋) else ⌊q⌋

/-- Python list slice `l[-m:]` for an integer `m` (as it appears in
`history[key][-max_history:]`, line 90): for `m > 0` it keeps the last `m`
elements (all of them when `m ≥ len`), for `m = 0` the index `-0` is just `0`
so the whole list is kept, and for `m < 0` it is the positive-index slice
`l[(-m):]`. -/
def pySliceLast {α : Type} (m : ℤ) (l : List α) : List α :=
  if 0 < m then l.drop (l.length - m.toNat)
  else if m = 0 then l
  else l.drop (-m).toNat

/-- The seven parallel lists of the global `history` dict (lines 33–41).
`timestamp` entries are `datetime.now()` values modelled as rationals. -/
structure History where
  timestamp : List ℚ
  dropped_frames : List ℤ
  total_frames : List ℤ
  render_time : List ℚ
  encoding_time : List ℚ
  cpu_usage : List ℚ
  memory_usage : List ℚ
  deriving DecidableEq

/-- The empty initial `history` (lines 33–41). -/
def emptyHistory : History :=
  ⟨[], [], [], [], [], [], []⟩

/-- The five entries of `config["alert_thresholds"]` (lines 23–29). -/
structure Thresholds where
  dropped_frames_percent : ℚ
  render_lag_ms : ℚ
  encoding_lag_ms : ℚ
  cpu_percent : ℚ
  memory_percent : ℚ
  deriving DecidableEq

/-- The default thresholds of lines 23–29 (also `script_defaults`). -/
def defaultThresholds : Thresholds :=
  ⟨1, 15, 20, 80, 70⟩

/-- The parts of the global `config` the monitoring logic reads. -/
structure Config where
  check_interval : ℚ
  alert_thresholds : Thresholds
  deriving DecidableEq

/-- Python `max_history = int(10 * 60 / config["check_interval"])`, line 87.
Python raises `ZeroDivisionError` on a zero interval; the claims use a
positive interval, matching the settings slider range 0.5–5.0. -/
def max_history (interval : ℚ) : ℤ :=
  int_trunc (10 * 60 / interval)

/-- Lines 77–84 of `update_history`: append one value to every parallel list.
`ts` is `datetime.now()`, `fd`/`tf` the frame counters, `rt`/`et` the stats
dict entries, `cpu`/`mem` the `psutil` readings. -/
def appendSample (h : History) (ts : ℚ) (fd tf : ℤ) (rt et cpu mem : ℚ) : History :=
  { timestamp := h.timestamp ++ [ts]
    dropped_frames := h.dropped_frames ++ [fd]
    total_frames := h.total_frames ++ [tf]
    render_time := h.render_time ++ [rt]
    encoding_time := h.encoding_time ++ [et]
    cpu_usage := h.cpu_usage ++ [cpu]
    memory_usage := h.memory_usage ++ [mem] }

/-- Lines 86–90 of `update_history`: when `len(history["timestamp"])` exceeds
`max_history`, replace every list by its `[-max_history:]` slice. -/
def trimHistory (interval : ℚ) (h : History) : History :=
  if (h.timestamp.length : ℤ) > max_history interval then
    { timestamp := pySliceLast (max_history interval) h.timestamp
      dropped_frames := pySliceLast (max_history interval) h.dropped_frames
      total_frames := pySliceLast (max_history interval) h.total_frames
      render_time := pySliceLast (max_history interval) h.render_time
      encoding_time := pySliceLast (max_history interval) h.encoding_time
      cpu_usage := pySliceLast (max_history interval) h.cpu_usage
      memory_usage := pySliceLast (max_history interval) h.memory_usage }
  else h

/-- Value `frames_dropped` as selected by lines 63–70: the counter when the
`default_stream` output exists, `0` when it is missing. -/
def fdOf (output : Option (ℤ × ℤ)) : ℤ :=
  match output with | some p => p.1 | none => 0

/-- Value `total_frames` as selected by lines 63–70: the counter when the
`default_stream` output exists, `1` when it is missing. -/
def tfOf (output : Option (ℤ × ℤ)) : ℤ :=
  match output with | some p => p.2 | none => 1

/-- Function `update_history(stats)`, lines 58–90. The host call
`obs_get_output_by_name("default_stream")` and the counters it yields are the
`output` argument: `some (d, t)` when the output exists, `none` when it is
missing, in which case lines 68–70 substitute `frames_dropped = 0`,
`total_frames = 1`. `cpu`/`mem` are what `psutil` returns, `ts` is
`datetime.now()`. -/
def update_history (interval : ℚ) (h : History) (stats_render stats_encoding : ℚ)
    (output : Option (ℤ × ℤ)) (cpu mem ts : ℚ) : History :=
  trimHistory interval
    (appendSample h ts (fdOf output) (tfOf output) stats_render stats_encoding cpu mem)

/-- Python `l[-1]` on the history lists (lines 101–105). On an empty list
Python raises; the embedding returns `0`, and every theorem using it carries
the equal-length hypotheses under which the lists are nonempty. -/
def pyLastZ (l : List ℤ) : ℤ := l.getLastD 0

/-- Python `l[-1]` on a rational-valued history list; see `pyLastZ`. -/
def pyLastQ (l : List ℚ) : ℚ := l.getLastD 0

/-- Rounding to an integer, ties to even: the rounding Python's `f"{x:.2f}"`
format applies to `x * 100`. -/
def roundHalfEven (q : ℚ) : ℤ :=
  let f := ⌊q⌋
  let frac := q - f
  if frac < 1/2 then f
  else if 1/2 < frac then f + 1
  else if f % 2 = 0 then f else f + 1

/-- Zero-padded two-digit rendering of `n < 100`. -/
def pad2 (n : ℕ) : String :=
  if n < 10 then "0" ++ Nat.repr n else Nat.repr n

/-- Python `f"{q:.2f}"`: two-decimal fixed-point formatting with ties to
even, e.g. `fmt2 5 = "5.00"`. -/
def fmt2 (q : ℚ) : String :=
  let c := roundHalfEven (q * 100)
  let n := c.natAbs
  let sign := if q < 0 then "-" else ""
  sign ++ Nat.repr (n / 100) ++ "." ++ pad2 (n % 100)

/-- The issue string of line 109. -/
def dropMsg (p : ℚ) : String := "Frame drops detected: " ++ fmt2 p ++ "%"

/-- The issue string of line 112. -/
def renderMsg (r : ℚ) : String := "High render time: " ++ fmt2 r ++ "ms"

/-- The issue string of line 115. -/
def encodingMsg (e : ℚ) : String := "High encoding time: " ++ fmt2 e ++ "ms"

/-- The issue string of line 118. -/
def cpuMsg (c : ℚ) : String := "High CPU usage: " ++ fmt2 c ++ "%"

/-- The issue string of line 121. -/
def memoryMsg (m : ℚ) : String := "High memory usage: " ++ fmt2 m ++ "%"

/-- Quantity `dropped_percent` as computed on line 101 from the most recent sample:
`history["dropped_frames"][-1] / max(1, history["total_frames"][-1]) * 100`. -/
def droppedPercentLast (h : History) : ℚ :=
  ((pyLastZ h.dropped_frames : ℚ) / ((max 1 (pyLastZ h.total_frames) : ℤ) : ℚ)) * 100

/-- Function `detect_issues()`, lines 92–123: empty when fewer than 5 samples exist,
otherwise one formatted string per threshold breached by the most recent
sample, in the fixed order drops, render, encoding, CPU, memory. -/
def detect_issues (h : History) (thresholds : Thresholds) : List String :=
  if h.timestamp.length < 5 then []
  else
    (if droppedPercentLast h > thresholds.dropped_frames_percent then
      [dropMsg (droppedPercentLast h)] else []) ++
    (if pyLastQ h.render_time > thresholds.render_lag_ms then
      [renderMsg (pyLastQ h.render_time)] else []) ++
    (if pyLastQ h.encoding_time > thresholds.encoding_lag_ms then
      [encodingMsg (pyLastQ h.encoding_time)] else []) ++
    (if pyLastQ h.cpu_usage > thresholds.cpu_percent then
      [cpuMsg (pyLastQ h.cpu_usage)] else []) ++
    (if pyLastQ h.memory_usage > thresholds.memory_percent then
      [memoryMsg (pyLastQ h.memory_usage)] else [])

/-- Lookup in the `last_alert_time` dict, modelled as an association list. -/
def dlookup (m : List (String × ℚ)) (k : String) : Option ℚ :=
  match m with
  | [] => none
  | (k', v) :: rest => if k' = k then some v else dlookup rest k

/-- Assignment `last_alert_time[issue] = now` on the dict model: replaces the
existing binding or appends a new one. -/
def dinsert (m : List (String × ℚ)) (k : String) (v : ℚ) : List (String × ℚ) :=
  match m with
  | [] => [(k, v)]
  | (k', v') :: rest => if k' = k then (k, v) :: rest else (k', v') :: dinsert rest k v

/-- Function `should_alert(issue)`, lines 125–133. `now` is `time.time()`. Returns the
boolean result together with the updated `last_alert_time` state. -/
def should_alert (la : List (String × ℚ)) (issue : String) (now : ℚ) : Bool × List (String × ℚ) :=
  match dlookup la issue with
  | some t => if now - t < 300 then (false, la) else (true, dinsert la issue now)
  | none => (true, dinsert la issue now)

/-- The mutable global state the monitoring loop reads and writes:
`history` (lines 33–41), `known_issues` (line 49, a Python set) and
`last_alert_time` (line 50, a Python dict). -/
structure DetectorState where
  history : History
  knownIssues : Finset String
  lastAlertTime : List (String × ℚ)

/-- The initial values of the globals: empty history, empty set, empty dict. -/
def initialState : DetectorState :=
  ⟨emptyHistory, ∅, []⟩

/-- Everything one iteration of `monitoring_thread_function` reads from the
outside world: `obs_get_average_frame_time_ns()` (line 203), the
`default_stream` output counters (lines 63–70), the `psutil` readings
(lines 73–75), `datetime.now()` (line 60) and `time.time()` (line 127). -/
structure TickInput where
  renderTimeNs : ℚ
  output : Option (ℤ × ℤ)
  cpu : ℚ
  memory : ℚ
  timestamp : ℚ
  now : ℚ

/-- The loop of lines 214–218: for each detected issue, if it is not in
`known_issues` or `should_alert` returns true, log a warning and add it to
`known_issues`. Python's `or` short-circuits, so `should_alert` (and its
state update) runs only when the issue is already known. Returns the updated
`known_issues`, the updated `last_alert_time` and the warnings in log order. -/
def alertStep (known : Finset String) (la : List (String × ℚ)) (now : ℚ) :
    List String → Finset String × List (String × ℚ) × List String
  | [] => (known, la, [])
  | issue :: rest =>
      if issue ∈ known then
        if (should_alert la issue now).1 then
          ((alertStep (insert issue known) (should_alert la issue now).2 now rest).1,
            (alertStep (insert issue known) (should_alert la issue now).2 now rest).2.1,
            issue :: (alertStep (insert issue known) (should_alert la issue now).2 now rest).2.2)
        else
          alertStep known (should_alert la issue now).2 now rest
      else
        ((alertStep (insert issue known) la now rest).1,
          (alertStep (insert issue known) la now rest).2.1,
          issue :: (alertStep (insert issue known) la now rest).2.2)

/-- The outcome of one loop iteration: the new global state, the issues
logged `ISSUE DETECTED` (in order) and the set of issues logged
`ISSUE RESOLVED` (a set because Python iterates a set on line 223). -/
structure TickResult where
  state : DetectorState
  warnings : List String
  resolved : Finset String

/-- One normal iteration of `monitoring_thread_function`, lines 200–236:
build the stats dict with `encoding_time = 0` (line 204), update the
history, detect issues, run the alert loop, compute and log the resolved
set (lines 221–225) and replace `known_issues` by the new detection set
(line 226). -/
def tick (cfg : Config) (st : DetectorState) (inp : TickInput) : TickResult :=
  let stats_render := inp.renderTimeNs / 1000000
  let stats_encoding : ℚ := 0
  let h := update_history cfg.check_interval st.history stats_render stats_encoding
    inp.output inp.cpu inp.memory inp.timestamp
  let issues := detect_issues h cfg.alert_thresholds
  let a := alertStep st.knownIssues st.lastAlertTime inp.now issues
  let resolved := a.1 \ issues.toFinset
  ⟨⟨h, issues.toFinset, a.2.1⟩, a.2.2, resolved⟩

/-- The detection list computed inside `tick` (line 211). -/
def tickIssues (cfg : Config) (st : DetectorState) (inp : TickInput) : List String :=
  detect_issues
    (update_history cfg.check_interval st.history (inp.renderTimeNs / 1000000) 0
      inp.output inp.cpu inp.memory inp.timestamp)
    cfg.alert_thresholds

/-- States the poll loop can reach: the initial globals, then any number of
iterations with arbitrary configurations and inputs. -/
inductive Reachable : DetectorState → Prop
  | init : Reachable initialState
  | step (cfg : Config) (st : DetectorState) (inp : TickInput) :
      Reachable st → Reachable (tick cfg st inp).state

/-- The averages of `generate_performance_report`, lines 362–368. -/
structure ReportAverages where
  avg_dropped_percent : ℚ
  avg_render : ℚ
  avg_encoding : ℚ
  avg_cpu : ℚ
  avg_memory : ℚ

/-- Function `generate_performance_report()`, lines 355–403. When the history is
empty the function logs a warning and returns without writing the report
file or touching any state; this is the `none` case. Otherwise it computes
the five averages exactly as lines 362–368 do: the dropped-frame percentage
averages `d / max(1, t) * 100` over `zip(dropped_frames, total_frames)`
divided by `len(timestamp)`, and each remaining field is its sum divided by
its own length. -/
def generate_performance_report (h : History) : Option ReportAverages :=
  if h.timestamp.length = 0 then none
  else some
    { avg_dropped_percent :=
        (((h.dropped_frames.zip h.total_frames).map
          (fun p => (p.1 : ℚ) / ((max 1 p.2 : ℤ) : ℚ) * 100)).sum) / h.timestamp.length
      avg_render := h.render_time.sum / h.render_time.length
      avg_encoding := h.encoding_time.sum / h.encoding_time.length
      avg_cpu := h.cpu_usage.sum / h.cpu_usage.length
      avg_memory := h.memory_usage.sum / h.memory_usage.length }

/-- Arithmetic mean of a list of rationals, the spec's notion of average. -/
def mean (l : List ℚ) : ℚ := l.sum / l.length

/-- Per-sample dropped-frame percentages over the retained history, the
spec's `dropped/max(1,total)*100` per sample. -/
def droppedPercents (h : History) : List ℚ :=
  (h.dropped_frames.zip h.total_frames).map
    (fun p => (p.1 : ℚ) / ((max 1 p.2 : ℤ) : ℚ) * 100)

/-- All seven parallel history lists have the same length. -/
def EqualLens (h : History) : Prop :=
  h.dropped_frames.length = h.timestamp.length ∧
  h.total_frames.length = h.timestamp.length ∧
  h.render_time.length = h.timestamp.length ∧
  h.encoding_time.length = h.timestamp.length ∧
  h.cpu_usage.length = h.timestamp.length ∧
  h.memory_usage.length = h.timestamp.length

instance (h : History) : Decidable (EqualLens h) := by
  unfold EqualLens; infer_instance

/-- All seven history lists are bounded in length by `n`. -/
def BoundedBy (h : History) (n : ℕ) : Prop :=
  h.timestamp.length ≤ n ∧
  h.dropped_frames.length ≤ n ∧
  h.total_frames.length ≤ n ∧
  h.render_time.length ≤ n ∧
  h.encoding_time.length ≤ n ∧
  h.cpu_usage.length ≤ n ∧
  h.memory_usage.length ≤ n

/-- Every history list of `h'` is a suffix of the corresponding list of `A`. -/
def SuffixOf (h' A : History) : Prop :=
  h'.timestamp <:+ A.timestamp ∧
  h'.dropped_frames <:+ A.dropped_frames ∧
  h'.total_frames <:+ A.total_frames ∧
  h'.render_time <:+ A.render_time ∧
  h'.encoding_time <:+ A.encoding_time ∧
  h'.cpu_usage <:+ A.cpu_usage ∧
  h'.memory_usage <:+ A.memory_usage

example : fmt2 5 = "5.00" := by norm_num [fmt2, roundHalfEven, pad2]; rfl
example : fmt2 (16000000 / 1000000) = "16.00" := by norm_num [fmt2, roundHalfEven, pad2]; rfl
example : pad2 7 = "07" := by rfl
example : max_history 1 = 600 := by norm_num [max_history, int_trunc]
example : dropMsg 5 = "Frame drops detected: 5.00%" := by
  norm_num [dropMsg, fmt2, roundHalfEven, pad2]; rfl

/-! Helper lemmas about the association-list model of `last_alert_time`. -/

lemma dlookup_dinsert_self (la : List (String × ℚ)) (k : String) (v : ℚ) :
    dlookup (dinsert la k v) k = some v := by
  induction la with
  | nil => simp [dinsert, dlookup]
  | cons p rest ih =>
      by_cases hk : p.1 = k
      · simp [dinsert, hk, dlookup]
      · simp [dinsert, hk, dlookup, ih]

lemma dlookup_dinsert_ne (la : List (String × ℚ)) (k k' : String) (v : ℚ) (h : k ≠ k') :
    dlookup (dinsert la k v) k' = dlookup la k' := by
  induction la with
  | nil => simp [dinsert, dlookup, h]
  | cons p rest ih =>
      by_cases hk : p.1 = k
      · simp [dinsert, hk, dlookup, h]
      · simp [dinsert, hk, dlookup, ih]

lemma dlookup_should_alert_ne (la : List (String × ℚ)) (issue x : String) (now : ℚ)
    (h : issue ≠ x) : dlookup (should_alert la issue now).2 x = dlookup la x := by
  unfold should_alert
  cases hl : dlookup la issue with
  | none => simp [dlookup_dinsert_ne la issue x now h]
  | some t =>
      by_cases ht : now - t < 300
      · simp [ht]
      · simp [ht, dlookup_dinsert_ne la issue x now h]

/-! Helper lemmas about Python list slicing and the history lists. -/

lemma length_pySliceLast_congr {α β : Type} (m : ℤ) (l₁ : List α) (l₂ : List β)
    (h : l₁.length = l₂.length) : (pySliceLast m l₁).length = (pySliceLast m l₂).length := by
  unfold pySliceLast
  split
  · simp [h]
  · split
    · exact h
    · simp [h]

lemma length_pySliceLast_of_gt {α : Type} (m : ℤ) (hm : 0 < m) (l : List α)
    (hl : (l.length : ℤ) > m) : (pySliceLast m l).length = m.toNat := by
  unfold pySliceLast
  rw [if_pos hm]
  simp only [List.length_drop]
  omega

lemma pySliceLast_suffix {α : Type} (m : ℤ) (l : List α) :
    pySliceLast m l <:+ l := by
  unfold pySliceLast
  split
  · exact List.drop_suffix _ _
  · split
    · exact List.suffix_refl l
    · exact List.drop_suffix _ _

lemma mem_pySliceLast {α : Type} (m : ℤ) (l : List α) (x : α)
    (h : x ∈ pySliceLast m l) : x ∈ l := by
  unfold pySliceLast at h
  split at h
  · exact List.drop_subset _ _ h
  · split at h
    · exact h
    · exact List.drop_subset _ _ h

lemma getLastD_pySliceLast_concat {α : Type} (m : ℤ) (hm : 0 ≤ m) (l : List α) (a d : α) :
    (pySliceLast m (l ++ [a])).getLastD d = a := by
  unfold pySliceLast
  split
  · next h0 =>
      rw [List.drop_append_of_le_length (by simp; omega)]
      exact List.getLastD_concat _ _ _
  · split
    · exact List.getLastD_concat _ _ _
    · omega

lemma max_history_nonneg (i : ℚ) (hi : 0 < i) : 0 ≤ max_history i := by
  unfold max_history int_trunc
  have hq : (0 : ℚ) ≤ 10 * 60 / i := by positivity
  rw [if_neg (by linarith)]
  exact Int.floor_nonneg.2 hq

lemma should_alert_recent (la : List (String × ℚ)) (x : String) (now t : ℚ)
    (hl : dlookup la x = some t) (ht : now - t < 300) :
    should_alert la x now = (false, la) := by
  unfold should_alert
  rw [hl]
  simp [ht]

lemma should_alert_fresh (la : List (String × ℚ)) (x : String) (now : ℚ)
    (h : ∀ t, dlookup la x = some t → 300 ≤ now - t) :
    (should_alert la x now).1 = true ∧
    dlookup (should_alert la x now).2 x = some now := by
  unfold should_alert
  cases hl : dlookup la x with
  | none => simp [dlookup_dinsert_self]
  | some t =>
      simp [not_lt.2 (h t hl), dlookup_dinsert_self]

lemma should_alert_true_lookup (la : List (String × ℚ)) (x : String) (now : ℚ)
    (h : (should_alert la x now).1 = true) :
    dlookup (should_alert la x now).2 x = some now := by
  unfold should_alert at h ⊢
  cases hl : dlookup la x with
  | none => simp [dlookup_dinsert_self]
  | some t =>
      rw [hl] at h
      by_cases ht : now - t < 300
      · simp [ht] at h
      · simp [ht, dlookup_dinsert_self]

/-- Claim C1: `should_alert` suppresses an issue whose previous alert is
strictly less than 300 seconds old, leaving `last_alert_time` unchanged;
otherwise (no prior entry, or an entry at least 300 seconds old) it records
the current time for that issue and returns true; consequently a second call
with the same text within 300 seconds of a successful call returns false and
changes nothing, and a call at least 300 seconds after a successful call
returns true and updates the stored timestamp. -/
theorem should_alert_spec (la : List (String × ℚ)) (x : String) (now : ℚ) :
    (∀ t, dlookup la x = some t → now - t < 300 →
      should_alert la x now = (false, la)) ∧
    (∀ t, dlookup la x = some t → 300 ≤ now - t →
      (should_alert la x now).1 = true ∧
      dlookup (should_alert la x now).2 x = some now) ∧
    (dlookup la x = none →
      (should_alert la x now).1 = true ∧
      dlookup (should_alert la x now).2 x = some now) ∧
    (∀ now₂, (should_alert la x now).1 = true → now₂ - now < 300 →
      should_alert (should_alert la x now).2 x now₂ = (false, (should_alert la x now).2)) ∧
    (∀ now₂, (should_alert la x now).1 = true → 300 ≤ now₂ - now →
      (should_alert (should_alert la x now).2 x now₂).1 = true ∧
      dlookup (should_alert (should_alert la x now).2 x now₂).2 x = some now₂) := by
  refine ⟨?_, ?_, ?_, ?_, ?_⟩
  · intro t hl ht
    exact should_alert_recent la x now t hl ht
  · intro t hl ht
    exact should_alert_fresh la x now (fun t' hl' => by rw [hl] at hl'; cases hl'; exact ht)
  · intro hl
    exact should_alert_fresh la x now (fun t' hl' => by rw [hl] at hl'; cases hl')
  · intro now₂ htrue ht
    exact should_alert_recent _ x now₂ now (should_alert_true_lookup la x now htrue)
      (by linarith)
  · intro now₂ htrue ht
    exact should_alert_fresh _ x now₂
      (fun t' hl' => by
        rw [should_alert_true_lookup la x now htrue] at hl'
        cases hl'
        exact ht)

/-- Witness for C1 at a concrete input: no prior entry, then a second call
19 seconds later is suppressed without changing the state. -/
theorem should_alert_spec_witness :
    dlookup [] "High CPU usage: 91.00%" = none ∧
    (should_alert [] "High CPU usage: 91.00%" 7).1 = true ∧
    dlookup (should_alert [] "High CPU usage: 91.00%" 7).2 "High CPU usage: 91.00%" = some 7 ∧
    should_alert (should_alert [] "High CPU usage: 91.00%" 7).2 "High CPU usage: 91.00%" 26 =
      (false, (should_alert [] "High CPU usage: 91.00%" 7).2) := by
  have h := should_alert_spec [] "High CPU usage: 91.00%" 7
  have h3 := h.2.2.1 (by decide)
  refine ⟨by decide, h3.1, h3.2, ?_⟩
  exact h.2.2.2.1 26 h3.1 (by norm_num)

/-- Claim C4: with fewer than 5 recorded samples, `detect_issues` returns the
empty list regardless of the thresholds. -/
theorem detect_issues_empty_of_few (h : History) (θ : Thresholds)
    (hlt : h.timestamp.length < 5) : detect_issues h θ = [] := by
  simp [detect_issues, hlt]

/-- Witness for C4: the empty history together with the default thresholds. -/
theorem detect_issues_empty_of_few_witness :
    emptyHistory.timestamp.length < 5 ∧ detect_issues emptyHistory defaultThresholds = [] :=
  ⟨by decide, detect_issues_empty_of_few emptyHistory defaultThresholds (by decide)⟩

/-- Claim C8: when the `default_stream` output is missing, `update_history`
records the sample with `dropped_frames = 0` and `total_frames = 1`, so the
dropped-frame percentage computed for that sample is `0`; the function is
total, so no failure is raised. -/
theorem update_history_missing_output (i : ℚ) (hi : 0 < i) (h : History)
    (sr se cpu mem ts : ℚ) :
    pyLastZ (update_history i h sr se none cpu mem ts).dropped_frames = 0 ∧
    pyLastZ (update_history i h sr se none cpu mem ts).total_frames = 1 ∧
    droppedPercentLast (update_history i h sr se none cpu mem ts) = 0 := by
  have hm := max_history_nonneg i hi
  have hd : pyLastZ (update_history i h sr se none cpu mem ts).dropped_frames = 0 := by
    unfold update_history appendSample trimHistory pyLastZ
    simp only
    split
    · exact getLastD_pySliceLast_concat _ hm _ _ _
    · exact List.getLastD_concat _ _ _
  have ht : pyLastZ (update_history i h sr se none cpu mem ts).total_frames = 1 := by
    unfold update_history appendSample trimHistory pyLastZ
    simp only
    split
    · exact getLastD_pySliceLast_concat _ hm _ _ _
    · exact List.getLastD_concat _ _ _
  refine ⟨hd, ht, ?_⟩
  unfold droppedPercentLast
  rw [hd, ht]
  norm_num

/-- Witness for C8 at interval 1 second and the empty history. -/
theorem update_history_missing_output_witness :
    (0 : ℚ) < 1 ∧
    pyLastZ (update_history 1 emptyHistory 2 0 none 3 4 10).dropped_frames = 0 ∧
    pyLastZ (update_history 1 emptyHistory 2 0 none 3 4 10).total_frames = 1 ∧
    droppedPercentLast (update_history 1 emptyHistory 2 0 none 3 4 10) = 0 :=
  ⟨by norm_num, update_history_missing_output 1 (by norm_num) emptyHistory 2 0 3 4 10⟩

lemma EqualLens_appendSample (h : History) (ts : ℚ) (fd tf : ℤ) (rt et cpu mem : ℚ)
    (hlen : EqualLens h) : EqualLens (appendSample h ts fd tf rt et cpu mem) := by
  obtain ⟨h1, h2, h3, h4, h5, h6⟩ := hlen
  simp [EqualLens, appendSample, h1, h2, h3, h4, h5, h6]

/-- Claim C3: `update_history` appends exactly one element to each of the
seven parallel lists, and preserves the invariant that all parallel lists
have equal length. -/
theorem update_history_parallel (i : ℚ) (h : History) (sr se : ℚ)
    (o : Option (ℤ × ℤ)) (cpu mem ts : ℚ) (hlen : EqualLens h) :
    ((appendSample h ts (fdOf o) (tfOf o) sr se cpu mem).timestamp.length =
        h.timestamp.length + 1 ∧
      (appendSample h ts (fdOf o) (tfOf o) sr se cpu mem).dropped_frames.length =
        h.dropped_frames.length + 1 ∧
      (appendSample h ts (fdOf o) (tfOf o) sr se cpu mem).total_frames.length =
        h.total_frames.length + 1 ∧
      (appendSample h ts (fdOf o) (tfOf o) sr se cpu mem).render_time.length =
        h.render_time.length + 1 ∧
      (appendSample h ts (fdOf o) (tfOf o) sr se cpu mem).encoding_time.length =
        h.encoding_time.length + 1 ∧
      (appendSample h ts (fdOf o) (tfOf o) sr se cpu mem).cpu_usage.length =
        h.cpu_usage.length + 1 ∧
      (appendSample h ts (fdOf o) (tfOf o) sr se cpu mem).memory_usage.length =
        h.memory_usage.length + 1) ∧
    EqualLens (update_history i h sr se o cpu mem ts) := by
  constructor
  · simp [appendSample]
  · have hA := EqualLens_appendSample h ts (fdOf o) (tfOf o) sr se cpu mem hlen
    obtain ⟨a1, a2, a3, a4, a5, a6⟩ := hA
    unfold update_history trimHistory
    split
    · refine ⟨?_, ?_, ?_, ?_, ?_, ?_⟩ <;>
        simp only [] <;>
        exact length_pySliceLast_congr _ _ _ (by assumption)
    · exact ⟨a1, a2, a3, a4, a5, a6⟩

/-- Witness for C3: one update on an empty history at interval 1. -/
theorem update_history_parallel_witness :
    EqualLens emptyHistory ∧
    EqualLens (update_history 1 emptyHistory 2 0 (some (3, 120)) 4 5 10) :=
  ⟨by decide,
    (update_history_parallel 1 emptyHistory 2 0 (some (3, 120)) 4 5 10 (by decide)).2⟩

/-- Claim C2: after `update_history` with check interval `i` (capacity
`⌊600 / i⌋ ≥ 1` as the spec assumes, starting from parallel lists of equal
length), every history list has at most `⌊600 / i⌋` entries; and when
truncation occurs each retained list is a suffix of the corresponding
pre-truncation list — the survivors are exactly the most recent
`⌊600 / i⌋` entries in their original relative order. -/
theorem update_history_capacity (i : ℚ) (h : History) (sr se : ℚ)
    (o : Option (ℤ × ℤ)) (cpu mem ts : ℚ)
    (hcap : 1 ≤ max_history i) (hlen : EqualLens h) :
    BoundedBy (update_history i h sr se o cpu mem ts) (max_history i).toNat ∧
    (((appendSample h ts (fdOf o) (tfOf o) sr se cpu mem).timestamp.length : ℤ) >
        max_history i →
      SuffixOf (update_history i h sr se o cpu mem ts)
        (appendSample h ts (fdOf o) (tfOf o) sr se cpu mem) ∧
      EqualLens (update_history i h sr se o cpu mem ts) ∧
      (update_history i h sr se o cpu mem ts).timestamp.length = (max_history i).toNat) := by
  have hA := EqualLens_appendSample h ts (fdOf o) (tfOf o) sr se cpu mem hlen
  obtain ⟨a1, a2, a3, a4, a5, a6⟩ := hA
  have hEq := (update_history_parallel i h sr se o cpu mem ts hlen).2
  have hm0 : (0 : ℤ) < max_history i := by omega
  by_cases hgt :
      ((appendSample h ts (fdOf o) (tfOf o) sr se cpu mem).timestamp.length : ℤ) >
        max_history i
  · have hlen_ts :
        (update_history i h sr se o cpu mem ts).timestamp.length = (max_history i).toNat := by
      unfold update_history trimHistory
      rw [if_pos hgt]
      exact length_pySliceLast_of_gt _ hm0 _ hgt
    have hsuf : SuffixOf (update_history i h sr se o cpu mem ts)
        (appendSample h ts (fdOf o) (tfOf o) sr se cpu mem) := by
      unfold update_history trimHistory
      rw [if_pos hgt]
      exact ⟨pySliceLast_suffix _ _, pySliceLast_suffix _ _,
        pySliceLast_suffix _ _, pySliceLast_suffix _ _,
        pySliceLast_suffix _ _, pySliceLast_suffix _ _,
        pySliceLast_suffix _ _⟩
    obtain ⟨e1, e2, e3, e4, e5, e6⟩ := hEq
    refine ⟨⟨le_of_eq hlen_ts, ?_, ?_, ?_, ?_, ?_, ?_⟩, fun _ => ⟨hsuf, ⟨e1, e2, e3, e4, e5, e6⟩, hlen_ts⟩⟩ <;>
      omega
  · have hno : update_history i h sr se o cpu mem ts =
        appendSample h ts (fdOf o) (tfOf o) sr se cpu mem := by
      unfold update_history trimHistory
      rw [if_neg hgt]
    rw [hno]
    push_neg at hgt
    refine ⟨⟨?_, ?_, ?_, ?_, ?_, ?_, ?_⟩, fun hc => absurd hc (by omega)⟩ <;> omega

/-- Witness for C2: a 3-sample history at interval 300 (capacity 2), where
the update truncates to the most recent 2 samples. -/
theorem update_history_capacity_witness :
    1 ≤ max_history 300 ∧
    EqualLens ⟨[1, 2, 3], [0, 0, 0], [1, 1, 1], [0, 0, 0], [0, 0, 0], [0, 0, 0], [0, 0, 0]⟩ ∧
    BoundedBy
      (update_history 300 ⟨[1, 2, 3], [0, 0, 0], [1, 1, 1], [0, 0, 0], [0, 0, 0], [0, 0, 0], [0, 0, 0]⟩
        2 0 (some (3, 120)) 4 5 10)
      (max_history 300).toNat := by
  have hcap : 1 ≤ max_history 300 := by norm_num [max_history, int_trunc]
  exact ⟨hcap, by decide,
    (update_history_capacity 300
      ⟨[1, 2, 3], [0, 0, 0], [1, 1, 1], [0, 0, 0], [0, 0, 0], [0, 0, 0], [0, 0, 0]⟩
      2 0 (some (3, 120)) 4 5 10 hcap (by decide)).1⟩

/-! The five issue strings are pairwise distinct whatever metric values they
embed: `dropMsg` starts with a different character, and the remaining four
differ at character index 5. -/

lemma dropMsg_ne_renderMsg (p r : ℚ) : dropMsg p ≠ renderMsg r := by
  intro h
  have h0 := congrArg (fun s => s.data[0]?) h
  simp [dropMsg, renderMsg, String.data_append] at h0

lemma dropMsg_ne_encodingMsg (p e : ℚ) : dropMsg p ≠ encodingMsg e := by
  intro h
  have h0 := congrArg (fun s => s.data[0]?) h
  simp [dropMsg, encodingMsg, String.data_append] at h0

lemma dropMsg_ne_cpuMsg (p c : ℚ) : dropMsg p ≠ cpuMsg c := by
  intro h
  have h0 := congrArg (fun s => s.data[0]?) h
  simp [dropMsg, cpuMsg, String.data_append] at h0

lemma dropMsg_ne_memoryMsg (p m : ℚ) : dropMsg p ≠ memoryMsg m := by
  intro h
  have h0 := congrArg (fun s => s.data[0]?) h
  simp [dropMsg, memoryMsg, String.data_append] at h0

lemma renderMsg_ne_encodingMsg (r e : ℚ) : renderMsg r ≠ encodingMsg e := by
  intro h
  have h5 := congrArg (fun s => s.data[5]?) h
  simp [renderMsg, encodingMsg, String.data_append] at h5

lemma renderMsg_ne_cpuMsg (r c : ℚ) : renderMsg r ≠ cpuMsg c := by
  intro h
  have h5 := congrArg (fun s => s.data[5]?) h
  simp [renderMsg, cpuMsg, String.data_append] at h5

lemma renderMsg_ne_memoryMsg (r m : ℚ) : renderMsg r ≠ memoryMsg m := by
  intro h
  have h5 := congrArg (fun s => s.data[5]?) h
  simp [renderMsg, memoryMsg, String.data_append] at h5

lemma encodingMsg_ne_cpuMsg (e c : ℚ) : encodingMsg e ≠ cpuMsg c := by
  intro h
  have h5 := congrArg (fun s => s.data[5]?) h
  simp [encodingMsg, cpuMsg, String.data_append] at h5

lemma encodingMsg_ne_memoryMsg (e m : ℚ) : encodingMsg e ≠ memoryMsg m := by
  intro h
  have h5 := congrArg (fun s => s.data[5]?) h
  simp [encodingMsg, memoryMsg, String.data_append] at h5

lemma cpuMsg_ne_memoryMsg (c m : ℚ) : cpuMsg c ≠ memoryMsg m := by
  intro h
  have h5 := congrArg (fun s => s.data[5]?) h
  simp [cpuMsg, memoryMsg, String.data_append] at h5

/-! Which issue strings start with the frame-drop and encoding markers. -/

lemma dropMark_in_dropMsg (p : ℚ) : "Frame drops detected: ".data <+: (dropMsg p).data :=
  ⟨(fmt2 p).data ++ "%".data, by simp [dropMsg, String.data_append]⟩

lemma dropMark_not_in_renderMsg (r : ℚ) :
    ¬ ("Frame drops detected: ".data <+: (renderMsg r).data) := by
  rintro ⟨t, ht⟩
  have h0 := congrArg (fun l => l[0]?) ht
  simp [renderMsg, String.data_append] at h0

lemma dropMark_not_in_encodingMsg (e : ℚ) :
    ¬ ("Frame drops detected: ".data <+: (encodingMsg e).data) := by
  rintro ⟨t, ht⟩
  have h0 := congrArg (fun l => l[0]?) ht
  simp [encodingMsg, String.data_append] at h0

lemma dropMark_not_in_cpuMsg (c : ℚ) :
    ¬ ("Frame drops detected: ".data <+: (cpuMsg c).data) := by
  rintro ⟨t, ht⟩
  have h0 := congrArg (fun l => l[0]?) ht
  simp [cpuMsg, String.data_append] at h0

lemma dropMark_not_in_memoryMsg (m : ℚ) :
    ¬ ("Frame drops detected: ".data <+: (memoryMsg m).data) := by
  rintro ⟨t, ht⟩
  have h0 := congrArg (fun l => l[0]?) ht
  simp [memoryMsg, String.data_append] at h0

lemma encMark_not_in_dropMsg (p : ℚ) :
    ¬ ("High encoding time: ".data <+: (dropMsg p).data) := by
  rintro ⟨t, ht⟩
  have h0 := congrArg (fun l => l[0]?) ht
  simp [dropMsg, String.data_append] at h0

lemma encMark_not_in_renderMsg (r : ℚ) :
    ¬ ("High encoding time: ".data <+: (renderMsg r).data) := by
  rintro ⟨t, ht⟩
  have h5 := congrArg (fun l => l[5]?) ht
  simp [renderMsg, String.data_append] at h5

lemma encMark_not_in_cpuMsg (c : ℚ) :
    ¬ ("High encoding time: ".data <+: (cpuMsg c).data) := by
  rintro ⟨t, ht⟩
  have h5 := congrArg (fun l => l[5]?) ht
  simp [cpuMsg, String.data_append] at h5

lemma encMark_not_in_memoryMsg (m : ℚ) :
    ¬ ("High encoding time: ".data <+: (memoryMsg m).data) := by
  rintro ⟨t, ht⟩
  have h5 := congrArg (fun l => l[5]?) ht
  simp [memoryMsg, String.data_append] at h5

lemma mem_ite_singleton {α : Type} {c : Prop} [Decidable c] (a b : α) :
    (a ∈ if c then [b] else ([] : List α)) ↔ c ∧ a = b := by
  split <;> simp_all

/-- Membership in the detection list once 5 samples exist: exactly the
breached thresholds contribute their formatted strings. -/
lemma mem_detect_issues (h : History) (θ : Thresholds)
    (h5 : ¬ h.timestamp.length < 5) (s : String) :
    s ∈ detect_issues h θ ↔
      (droppedPercentLast h > θ.dropped_frames_percent ∧ s = dropMsg (droppedPercentLast h)) ∨
      (pyLastQ h.render_time > θ.render_lag_ms ∧ s = renderMsg (pyLastQ h.render_time)) ∨
      (pyLastQ h.encoding_time > θ.encoding_lag_ms ∧ s = encodingMsg (pyLastQ h.encoding_time)) ∨
      (pyLastQ h.cpu_usage > θ.cpu_percent ∧ s = cpuMsg (pyLastQ h.cpu_usage)) ∨
      (pyLastQ h.memory_usage > θ.memory_percent ∧ s = memoryMsg (pyLastQ h.memory_usage)) := by
  unfold detect_issues
  rw [if_neg h5]
  simp only [List.mem_append, mem_ite_singleton, or_assoc]

/-- Claim C5: with at least 5 samples, a frame-drop issue appears in the
detection list exactly when `dropped_frames[-1] / max(1, total_frames[-1]) * 100`
exceeds the `dropped_frames_percent` threshold, and the percentage reported is
that of the most recent sample; when that percentage is 5 and the threshold 1,
the emitted issue text contains `"5.00%"`. -/
theorem frame_drop_detection (h : History) (θ : Thresholds)
    (h5 : 5 ≤ h.timestamp.length) :
    ((∃ s ∈ detect_issues h θ, "Frame drops detected: ".data <+: s.data) ↔
      droppedPercentLast h > θ.dropped_frames_percent) ∧
    (droppedPercentLast h = 5 → θ.dropped_frames_percent = 1 →
      ∃ s ∈ detect_issues h θ, "5.00%".data <:+: s.data) := by
  have h5' : ¬ h.timestamp.length < 5 := not_lt.2 h5
  constructor
  · constructor
    · rintro ⟨s, hs, hmark⟩
      rcases (mem_detect_issues h θ h5' s).1 hs with
        ⟨hc, rfl⟩ | ⟨hc, rfl⟩ | ⟨hc, rfl⟩ | ⟨hc, rfl⟩ | ⟨hc, rfl⟩
      · exact hc
      · exact absurd hmark (dropMark_not_in_renderMsg _)
      · exact absurd hmark (dropMark_not_in_encodingMsg _)
      · exact absurd hmark (dropMark_not_in_cpuMsg _)
      · exact absurd hmark (dropMark_not_in_memoryMsg _)
    · intro hc
      exact ⟨dropMsg (droppedPercentLast h),
        (mem_detect_issues h θ h5' _).2 (Or.inl ⟨hc, rfl⟩), dropMark_in_dropMsg _⟩
  · intro hp ht
    refine ⟨dropMsg (droppedPercentLast h),
      (mem_detect_issues h θ h5' _).2 (Or.inl ⟨by rw [hp, ht]; norm_num, rfl⟩), ?_⟩
    rw [hp]
    have hmsg : dropMsg 5 = "Frame drops detected: 5.00%" := by
      norm_num [dropMsg, fmt2, roundHalfEven, pad2]; rfl
    rw [hmsg]
    exact ⟨"Frame drops detected: ".data, [], by decide⟩

/-- Witness for C5: a 5-sample history whose latest sample has 5 dropped of
100 total frames, against the default thresholds. -/
theorem frame_drop_detection_witness :
    5 ≤ (History.mk [1, 2, 3, 4, 5] [0, 0, 0, 0, 5] [1, 1, 1, 1, 100]
      [0, 0, 0, 0, 0] [0, 0, 0, 0, 0] [0, 0, 0, 0, 0] [0, 0, 0, 0, 0]).timestamp.length ∧
    droppedPercentLast (History.mk [1, 2, 3, 4, 5] [0, 0, 0, 0, 5] [1, 1, 1, 1, 100]
      [0, 0, 0, 0, 0] [0, 0, 0, 0, 0] [0, 0, 0, 0, 0] [0, 0, 0, 0, 0]) = 5 ∧
    defaultThresholds.dropped_frames_percent = 1 ∧
    ∃ s ∈ detect_issues (History.mk [1, 2, 3, 4, 5] [0, 0, 0, 0, 5] [1, 1, 1, 1, 100]
      [0, 0, 0, 0, 0] [0, 0, 0, 0, 0] [0, 0, 0, 0, 0] [0, 0, 0, 0, 0]) defaultThresholds,
      "5.00%".data <:+: s.data := by
  have hp : droppedPercentLast (History.mk [1, 2, 3, 4, 5] [0, 0, 0, 0, 5] [1, 1, 1, 1, 100]
      [0, 0, 0, 0, 0] [0, 0, 0, 0, 0] [0, 0, 0, 0, 0] [0, 0, 0, 0, 0]) = 5 := by
    norm_num [droppedPercentLast, pyLastZ]
  exact ⟨by norm_num, hp, rfl,
    (frame_drop_detection _ defaultThresholds (by norm_num)).2 hp rfl⟩

/-- Claim C7: `generate_performance_report` on an empty history produces no
report (Python logs a warning and returns before writing the file, touching
no state); on a nonempty history with parallel lists of equal length, each
reported average is the arithmetic mean of the corresponding per-sample
values over the entire retained history, with the per-sample dropped-frame
percentage being `dropped / max(1, total) * 100`. -/
theorem report_averages (h : History) :
    (h.timestamp = [] → generate_performance_report h = none) ∧
    (h.timestamp ≠ [] → EqualLens h →
      ∃ r, generate_performance_report h = some r ∧
        r.avg_dropped_percent = mean (droppedPercents h) ∧
        r.avg_render = mean h.render_time ∧
        r.avg_encoding = mean h.encoding_time ∧
        r.avg_cpu = mean h.cpu_usage ∧
        r.avg_memory = mean h.memory_usage) := by
  constructor
  · intro he
    simp [generate_performance_report, he]
  · intro hne hlen
    obtain ⟨l1, l2, _, _, _, _⟩ := hlen
    have h0 : ¬ h.timestamp.length = 0 := by
      simpa [List.length_eq_zero] using hne
    unfold generate_performance_report
    rw [if_neg h0]
    refine ⟨_, rfl, ?_, rfl, rfl, rfl, rfl⟩
    unfold mean droppedPercents
    rw [List.length_map, List.length_zip, l1, l2, min_self]

/-- Witness for C7: the empty history yields no report; a concrete 2-sample
history yields a report whose averages are the arithmetic means. -/
theorem report_averages_witness :
    generate_performance_report emptyHistory = none ∧
    ∃ r, generate_performance_report
        (History.mk [1, 2] [1, 0] [100, 1] [10, 20] [0, 0] [50, 60] [40, 40]) = some r ∧
      r.avg_dropped_percent = mean (droppedPercents
        (History.mk [1, 2] [1, 0] [100, 1] [10, 20] [0, 0] [50, 60] [40, 40])) ∧
      r.avg_render = mean [10, 20] ∧
      r.avg_encoding = mean [0, 0] ∧
      r.avg_cpu = mean [50, 60] ∧
      r.avg_memory = mean [40, 40] :=
  ⟨(report_averages emptyHistory).1 rfl,
    (report_averages (History.mk [1, 2] [1, 0] [100, 1] [10, 20] [0, 0] [50, 60] [40, 40])).2
      (by decide) (by decide)⟩

/-! Zeta-unfolding equations for the components of `tick`. -/

lemma tick_history (cfg : Config) (st : DetectorState) (inp : TickInput) :
    (tick cfg st inp).state.history =
      update_history cfg.check_interval st.history (inp.renderTimeNs / 1000000) 0
        inp.output inp.cpu inp.memory inp.timestamp := rfl

lemma tick_known (cfg : Config) (st : DetectorState) (inp : TickInput) :
    (tick cfg st inp).state.knownIssues = (tickIssues cfg st inp).toFinset := rfl

lemma tick_la (cfg : Config) (st : DetectorState) (inp : TickInput) :
    (tick cfg st inp).state.lastAlertTime =
      (alertStep st.knownIssues st.lastAlertTime inp.now (tickIssues cfg st inp)).2.1 := rfl

lemma tick_warnings (cfg : Config) (st : DetectorState) (inp : TickInput) :
    (tick cfg st inp).warnings =
      (alertStep st.knownIssues st.lastAlertTime inp.now (tickIssues cfg st inp)).2.2 := rfl

lemma tick_resolved (cfg : Config) (st : DetectorState) (inp : TickInput) :
    (tick cfg st inp).resolved =
      (alertStep st.knownIssues st.lastAlertTime inp.now (tickIssues cfg st inp)).1 \
        (tickIssues cfg st inp).toFinset := rfl

lemma subset_alertStep_known (issues : List String) (known : Finset String)
    (la : List (String × ℚ)) (now : ℚ) :
    known ⊆ (alertStep known la now issues).1 := by
  induction issues generalizing known la with
  | nil => simp [alertStep]
  | cons i rest ih =>
      by_cases hk : i ∈ known
      · by_cases hr : (should_alert la i now).1
        · simp only [alertStep, if_pos hk, if_pos hr]
          exact subset_trans (Finset.subset_insert i known) (ih _ _)
        · simp only [alertStep, if_pos hk, if_neg hr]
          exact ih _ _
      · simp only [alertStep, if_neg hk]
        exact subset_trans (Finset.subset_insert i known) (ih _ _)

lemma alertStep_known_subset_union (issues : List String) (known : Finset String)
    (la : List (String × ℚ)) (now : ℚ) :
    (alertStep known la now issues).1 ⊆ known ∪ issues.toFinset := by
  induction issues generalizing known la with
  | nil => simp [alertStep]
  | cons i rest ih =>
      have hstep : insert i known ∪ rest.toFinset ⊆ known ∪ (i :: rest).toFinset := by
        intro y hy
        simp only [Finset.mem_union, Finset.mem_insert, List.toFinset_cons] at hy ⊢
        tauto
      by_cases hk : i ∈ known
      · by_cases hr : (should_alert la i now).1
        · simp only [alertStep, if_pos hk, if_pos hr]
          exact subset_trans (ih _ _) hstep
        · simp only [alertStep, if_pos hk, if_neg hr]
          refine subset_trans (ih _ _) ?_
          intro y hy
          simp only [Finset.mem_union, List.toFinset_cons, Finset.mem_insert] at hy ⊢
          tauto
      · simp only [alertStep, if_neg hk]
        exact subset_trans (ih _ _) hstep

/-- Claim C6: on every tick, the issues logged as resolved are exactly those
in the previous `known_issues` that are absent from the new detection list,
and `known_issues` is then replaced by the new detection set. (The code adds
every detected issue to `known_issues` before computing the difference on
line 222, but those additions are all members of the detection set, so the
difference equals the previous set minus the detection set.) -/
theorem resolved_issues_exact (cfg : Config) (st : DetectorState) (inp : TickInput)
    (x : String) :
    (x ∈ (tick cfg st inp).resolved ↔
      x ∈ st.knownIssues ∧ x ∉ tickIssues cfg st inp) ∧
    (tick cfg st inp).state.knownIssues = (tickIssues cfg st inp).toFinset := by
  refine ⟨?_, tick_known cfg st inp⟩
  rw [tick_resolved]
  rw [Finset.mem_sdiff]
  constructor
  · rintro ⟨hA, hS⟩
    have := alertStep_known_subset_union (tickIssues cfg st inp) st.knownIssues
      st.lastAlertTime inp.now hA
    rcases Finset.mem_union.1 this with hknown | hS'
    · exact ⟨hknown, fun hmem => hS (List.mem_toFinset.2 hmem)⟩
    · exact absurd hS' hS
  · rintro ⟨hknown, hni⟩
    exact ⟨subset_alertStep_known _ _ _ _ hknown, fun hS => hni (List.mem_toFinset.1 hS)⟩

lemma getLastD_eq_zero_of_all (l : List ℚ) (h : ∀ x ∈ l, x = 0) : l.getLastD 0 = 0 := by
  induction l with
  | nil => rfl
  | cons a t ih =>
      cases t with
      | nil => exact h a (by simp)
      | cons b u =>
          rw [List.getLastD_cons]
          exact ih (fun x hx => h x (by simp [hx]))

lemma encoding_all_zero (st : DetectorState) (h : Reachable st) :
    ∀ x ∈ st.history.encoding_time, x = 0 := by
  induction h with
  | init => simp [initialState, emptyHistory]
  | step cfg st inp hst ih =>
      intro x hx
      rw [tick_history] at hx
      unfold update_history trimHistory at hx
      split at hx
      · have hx' := mem_pySliceLast _ _ _ hx
        simp only [appendSample, List.mem_append] at hx'
        rcases hx' with hmem | hzero
        · exact ih x hmem
        · simpa using hzero
      · simp only [appendSample, List.mem_append] at hx
        rcases hx with hmem | hzero
        · exact ih x hmem
        · simpa using hzero

/-- Claim C9: every tick records encoding time 0 (line 204 fixes it), so in
every reachable state all recorded encoding times are 0 and, for any
non-negative `encoding_lag_ms` threshold, `detect_issues` never emits a
"High encoding time" issue. -/
theorem encoding_branch_never_fires (st : DetectorState) (θ : Thresholds)
    (hst : Reachable st) (hθ : 0 ≤ θ.encoding_lag_ms) :
    (∀ x ∈ st.history.encoding_time, x = 0) ∧
    ∀ s ∈ detect_issues st.history θ, ¬ ("High encoding time: ".data <+: s.data) := by
  have hz := encoding_all_zero st hst
  refine ⟨hz, ?_⟩
  intro s hs hmark
  by_cases h5 : st.history.timestamp.length < 5
  · simp [detect_issues, h5] at hs
  · rcases (mem_detect_issues _ θ h5 s).1 hs with
      ⟨hc, rfl⟩ | ⟨hc, rfl⟩ | ⟨hc, rfl⟩ | ⟨hc, rfl⟩ | ⟨hc, rfl⟩
    · exact encMark_not_in_dropMsg _ hmark
    · exact encMark_not_in_renderMsg _ hmark
    · have hzero : pyLastQ st.history.encoding_time = 0 :=
        getLastD_eq_zero_of_all _ hz
      rw [hzero] at hc
      linarith
    · exact encMark_not_in_cpuMsg _ hmark
    · exact encMark_not_in_memoryMsg _ hmark

/-- Witness for C9: the loop's initial state with the default thresholds. -/
theorem encoding_branch_never_fires_witness :
    (∀ x ∈ initialState.history.encoding_time, x = 0) ∧
    ∀ s ∈ detect_issues initialState.history defaultThresholds,
      ¬ ("High encoding time: ".data <+: s.data) :=
  encoding_branch_never_fires initialState defaultThresholds Reachable.init
    (by norm_num [defaultThresholds])

lemma alertStep_lookup_of_not_mem (issues : List String) (known : Finset String)
    (la : List (String × ℚ)) (now : ℚ) (x : String) (hx : x ∉ issues) :
    dlookup (alertStep known la now issues).2.1 x = dlookup la x := by
  induction issues generalizing known la with
  | nil => rfl
  | cons i rest ih =>
      have hxi : i ≠ x := fun he => hx (by simp [he])
      have hxr : x ∉ rest := fun hr => hx (by simp [hr])
      by_cases hk : i ∈ known
      · by_cases hr : (should_alert la i now).1
        · simp only [alertStep, if_pos hk, if_pos hr]
          rw [ih _ _ hxr]
          exact dlookup_should_alert_ne la i x now hxi
        · simp only [alertStep, if_pos hk, if_neg hr]
          rw [ih _ _ hxr]
          exact dlookup_should_alert_ne la i x now hxi
      · simp only [alertStep, if_neg hk]
        exact ih _ _ hxr

lemma alertStep_new_issue (issues : List String) (known : Finset String)
    (la : List (String × ℚ)) (now : ℚ) (x : String)
    (hx : x ∈ issues) (hk : x ∉ known) (hnd : issues.Nodup) :
    x ∈ (alertStep known la now issues).2.2 ∧
    dlookup (alertStep known la now issues).2.1 x = dlookup la x := by
  induction issues generalizing known la with
  | nil => cases hx
  | cons i rest ih =>
      rw [List.nodup_cons] at hnd
      rcases List.mem_cons.1 hx with rfl | hxr
      · simp only [alertStep, if_neg hk]
        refine ⟨by simp, ?_⟩
        exact alertStep_lookup_of_not_mem rest _ la now x hnd.1
      · have hxi : i ≠ x := fun he => hnd.1 (he ▸ hxr)
        have hk' : x ∉ insert i known := by
          simp only [Finset.mem_insert, not_or]
          exact ⟨fun he => hxi he.symm, hk⟩
        by_cases hik : i ∈ known
        · by_cases hr : (should_alert la i now).1
          · simp only [alertStep, if_pos hik, if_pos hr]
            obtain ⟨hw, hl⟩ := ih (insert i known) (should_alert la i now).2 hxr hk' hnd.2
            exact ⟨by simp [hw], by
              rw [hl]; exact dlookup_should_alert_ne la i x now hxi⟩
          · simp only [alertStep, if_pos hik, if_neg hr]
            obtain ⟨hw, hl⟩ := ih known (should_alert la i now).2 hxr hk hnd.2
            exact ⟨hw, by rw [hl]; exact dlookup_should_alert_ne la i x now hxi⟩
        · simp only [alertStep, if_neg hik]
          obtain ⟨hw, hl⟩ := ih (insert i known) la hxr hk' hnd.2
          exact ⟨by simp [hw], hl⟩

lemma alertStep_known_no_entry (issues : List String) (known : Finset String)
    (la : List (String × ℚ)) (now : ℚ) (x : String)
    (hx : x ∈ issues) (hk : x ∈ known) (hl : dlookup la x = none) (hnd : issues.Nodup) :
    x ∈ (alertStep known la now issues).2.2 ∧
    dlookup (alertStep known la now issues).2.1 x = some now := by
  induction issues generalizing known la with
  | nil => cases hx
  | cons i rest ih =>
      rw [List.nodup_cons] at hnd
      rcases List.mem_cons.1 hx with rfl | hxr
      · have hfresh := should_alert_fresh la x now (fun t ht => by rw [hl] at ht; cases ht)
        simp only [alertStep, if_pos hk, if_pos hfresh.1]
        refine ⟨by simp, ?_⟩
        rw [alertStep_lookup_of_not_mem rest _ _ now x hnd.1]
        exact hfresh.2
      · have hxi : i ≠ x := fun he => hnd.1 (he ▸ hxr)
        have hl' : dlookup (should_alert la i now).2 x = none := by
          rw [dlookup_should_alert_ne la i x now hxi]; exact hl
        by_cases hik : i ∈ known
        · by_cases hr : (should_alert la i now).1
          · simp only [alertStep, if_pos hik, if_pos hr]
            obtain ⟨hw, hlook⟩ := ih (insert i known) (should_alert la i now).2 hxr
              (Finset.mem_insert_of_mem hk) hl' hnd.2
            exact ⟨by simp [hw], hlook⟩
          · simp only [alertStep, if_pos hik, if_neg hr]
            exact ih known (should_alert la i now).2 hxr hk hl' hnd.2
        · simp only [alertStep, if_neg hik]
          obtain ⟨hw, hlook⟩ := ih (insert i known) la hxr
            (Finset.mem_insert_of_mem hk) hl hnd.2
          exact ⟨by simp [hw], hlook⟩

lemma detect_issues_nodup (h : History) (θ : Thresholds) :
    (detect_issues h θ).Nodup := by
  unfold detect_issues
  split
  · simp
  · split_ifs <;>
      simp_all [dropMsg_ne_renderMsg, dropMsg_ne_encodingMsg, dropMsg_ne_cpuMsg,
        dropMsg_ne_memoryMsg, renderMsg_ne_encodingMsg, renderMsg_ne_cpuMsg,
        renderMsg_ne_memoryMsg, encodingMsg_ne_cpuMsg, encodingMsg_ne_memoryMsg,
        cpuMsg_ne_memoryMsg]

/-- Claim C10: in the alerting loop, an issue not yet in `known_issues` is
logged as a warning via the short-circuited left disjunct, without invoking
`should_alert`, so its `last_alert_time` entry is untouched; hence an issue
text detected on two consecutive ticks and starting with no recorded entry
is warned on both ticks — the first as a new issue leaving no entry, the
second via `should_alert` finding no prior entry — and only the second tick
records a cooldown timestamp. -/
theorem alert_short_circuit (cfg : Config) (st : DetectorState) (inp inp₂ : TickInput)
    (x : String) :
    (x ∈ tickIssues cfg st inp → x ∉ st.knownIssues →
      x ∈ (tick cfg st inp).warnings ∧
      dlookup (tick cfg st inp).state.lastAlertTime x = dlookup st.lastAlertTime x) ∧
    (x ∈ tickIssues cfg st inp → x ∉ st.knownIssues →
      dlookup st.lastAlertTime x = none →
      x ∈ tickIssues cfg (tick cfg st inp).state inp₂ →
      x ∈ (tick cfg st inp).warnings ∧
      dlookup (tick cfg st inp).state.lastAlertTime x = none ∧
      x ∈ (tick cfg (tick cfg st inp).state inp₂).warnings ∧
      dlookup (tick cfg (tick cfg st inp).state inp₂).state.lastAlertTime x =
        some inp₂.now) := by
  have hnd1 : (tickIssues cfg st inp).Nodup := detect_issues_nodup _ _
  have part1 : x ∈ tickIssues cfg st inp → x ∉ st.knownIssues →
      x ∈ (tick cfg st inp).warnings ∧
      dlookup (tick cfg st inp).state.lastAlertTime x = dlookup st.lastAlertTime x := by
    intro hx hk
    rw [tick_warnings, tick_la]
    exact alertStep_new_issue _ _ _ _ _ hx hk hnd1
  refine ⟨part1, ?_⟩
  intro hx hk hnone hx2
  obtain ⟨hw1, hl1⟩ := part1 hx hk
  have hl1' : dlookup (tick cfg st inp).state.lastAlertTime x = none := by
    rw [hl1]; exact hnone
  have hk2 : x ∈ (tick cfg st inp).state.knownIssues := by
    rw [tick_known]; exact List.mem_toFinset.2 hx
  have hnd2 : (tickIssues cfg (tick cfg st inp).state inp₂).Nodup := detect_issues_nodup _ _
  have h2 := alertStep_known_no_entry (tickIssues cfg (tick cfg st inp).state inp₂)
    (tick cfg st inp).state.knownIssues (tick cfg st inp).state.lastAlertTime inp₂.now x
    hx2 hk2 hl1' hnd2
  refine ⟨hw1, hl1', ?_, ?_⟩
  · rw [tick_warnings]; exact h2.1
  · rw [tick_la]; exact h2.2

/-! Concrete data for exercising the two-tick scenario: interval 1 s with the
default thresholds, a 4-sample quiet history, and two ticks whose render time
of 16 ms breaches the 15 ms threshold. -/

def cfgW : Config := ⟨1, defaultThresholds⟩

def histW : History :=
  ⟨[0, 1, 2, 3], [0, 0, 0, 0], [1, 1, 1, 1], [0, 0, 0, 0], [0, 0, 0, 0],
    [0, 0, 0, 0], [0, 0, 0, 0]⟩

def histW1 : History :=
  ⟨[0, 1, 2, 3, 4], [0, 0, 0, 0, 0], [1, 1, 1, 1, 1], [0, 0, 0, 0, 16],
    [0, 0, 0, 0, 0], [0, 0, 0, 0, 0], [0, 0, 0, 0, 0]⟩

def histW2 : History :=
  ⟨[0, 1, 2, 3, 4, 5], [0, 0, 0, 0, 0, 0], [1, 1, 1, 1, 1, 1], [0, 0, 0, 0, 16, 16],
    [0, 0, 0, 0, 0, 0], [0, 0, 0, 0, 0, 0], [0, 0, 0, 0, 0, 0]⟩

def stW : DetectorState := ⟨histW, ∅, []⟩

def inpW1 : TickInput := ⟨16000000, some (0, 1), 0, 0, 4, 100⟩

def inpW2 : TickInput := ⟨16000000, some (0, 1), 0, 0, 5, 101⟩

/-- Witness for C10: the issue "High render time: 16.00ms" detected on two
consecutive ticks from a state where it is unknown and has no alert entry. -/
theorem alert_short_circuit_witness :
    "High render time: 16.00ms" ∈ tickIssues cfgW stW inpW1 ∧
    "High render time: 16.00ms" ∉ stW.knownIssues ∧
    dlookup stW.lastAlertTime "High render time: 16.00ms" = none ∧
    "High render time: 16.00ms" ∈ tickIssues cfgW (tick cfgW stW inpW1).state inpW2 ∧
    "High render time: 16.00ms" ∈ (tick cfgW stW inpW1).warnings ∧
    dlookup (tick cfgW stW inpW1).state.lastAlertTime "High render time: 16.00ms" = none ∧
    "High render time: 16.00ms" ∈ (tick cfgW (tick cfgW stW inpW1).state inpW2).warnings ∧
    dlookup (tick cfgW (tick cfgW stW inpW1).state inpW2).state.lastAlertTime
      "High render time: 16.00ms" = some 101 := by
  have hmsg : renderMsg 16 = "High render time: 16.00ms" := by
    norm_num [renderMsg, fmt2, roundHalfEven, pad2]; rfl
  have hh1 : update_history 1 histW (16000000 / 1000000) 0 (some (0, 1)) 0 0 4 = histW1 := by
    norm_num [update_history, trimHistory, appendSample, fdOf, tfOf, max_history,
      int_trunc, histW, histW1]
  have hh2 : update_history 1 histW1 (16000000 / 1000000) 0 (some (0, 1)) 0 0 5 = histW2 := by
    norm_num [update_history, trimHistory, appendSample, fdOf, tfOf, max_history,
      int_trunc, histW1, histW2]
  have h5a : ¬ histW1.timestamp.length < 5 := by norm_num [histW1]
  have h5b : ¬ histW2.timestamp.length < 5 := by norm_num [histW2]
  have hlast1 : pyLastQ histW1.render_time = 16 := rfl
  have hlast2 : pyLastQ histW2.render_time = 16 := rfl
  have hti1 : tickIssues cfgW stW inpW1 = detect_issues histW1 defaultThresholds := by
    unfold tickIssues
    dsimp only [cfgW, stW, inpW1]
    rw [hh1]
  have hsth : (tick cfgW stW inpW1).state.history = histW1 := by
    rw [tick_history]
    exact hh1
  have hti2 : tickIssues cfgW (tick cfgW stW inpW1).state inpW2 =
      detect_issues histW2 defaultThresholds := by
    unfold tickIssues
    rw [hsth]
    dsimp only [cfgW, inpW2]
    rw [hh2]
  have hx1 : "High render time: 16.00ms" ∈ tickIssues cfgW stW inpW1 := by
    rw [hti1]
    refine (mem_detect_issues _ _ h5a _).2 (Or.inr (Or.inl ⟨?_, ?_⟩))
    · rw [hlast1]; norm_num [defaultThresholds]
    · rw [hlast1]; exact hmsg.symm
  have hx2 : "High render time: 16.00ms" ∈
      tickIssues cfgW (tick cfgW stW inpW1).state inpW2 := by
    rw [hti2]
    refine (mem_detect_issues _ _ h5b _).2 (Or.inr (Or.inl ⟨?_, ?_⟩))
    · rw [hlast2]; norm_num [defaultThresholds]
    · rw [hlast2]; exact hmsg.symm
  have hk : "High render time: 16.00ms" ∉ stW.knownIssues := by simp [stW]
  have hn : dlookup stW.lastAlertTime "High render time: 16.00ms" = none := rfl
  obtain ⟨hw1, hl1, hw2, hl2⟩ := (alert_short_circuit cfgW stW inpW1 inpW2 _).2 hx1 hk hn hx2
  exact ⟨hx1, hk, hn, hx2, hw1, hl1, hw2, hl2⟩

end OBSDesync
